import Mathlib

/-!
Shallow embedding of the retirement calculator's core
(`retirement_calculator/models.py` and `retirement_calculator/cli.py`).

Monetary amounts and rates are embedded as exact rationals (`ℚ`); the
idealised real arithmetic of the source formulas is reproduced exactly,
and every rounded result proved below agrees with the reference values
recorded in the repository's tests.  Python's float division raises
`ZeroDivisionError` on a zero divisor, so the two operations that divide
by a rate difference are embedded as `Option ℤ`, with `none` standing
for the raised error.
-/

namespace RetirementCalculator

/-- Embeds `UserFinancials`, the named tuple returned by the CLI layer. -/
structure UserFinancials where
  expected_retirement_savings : ℤ
  required_retirement_savings : ℤ
deriving DecidableEq, Repr

/-- The raw field set handed to `User.model_validate`: the three rate
fields still carry their whole-number-percentage form.  Dates are
embedded as integer day numbers, so that a difference of two dates
is the `delta.days` of the source. -/
structure RawUser where
  id : ℤ
  address : String
  full_name : String
  date_of_birth : ℤ
  life_expectancy : ℤ
  retirement_age : ℤ
  current_retirement_savings : ℤ
  household_income : ℤ
  current_savings_rate : ℚ
  expected_rate_of_return : ℚ
  pre_retirement_income_percent : ℚ
deriving DecidableEq, Repr

/-- Embeds the validated `User` pydantic model: the three rate fields
now hold the fraction form produced by the `mode="before"` field
validator. -/
structure User where
  id : ℤ
  address : String
  full_name : String
  date_of_birth : ℤ
  life_expectancy : ℤ
  retirement_age : ℤ
  current_retirement_savings : ℤ
  household_income : ℤ
  current_savings_rate : ℚ
  expected_rate_of_return : ℚ
  pre_retirement_income_percent : ℚ
deriving DecidableEq, Repr

/-- Truncation toward zero of a rational, embedding Python's `int()`
applied to a float quotient. -/
def truncQ (q : ℚ) : ℤ := if 0 ≤ q then ⌊q⌋ else ⌈q⌉

/-- Embeds Python's built-in `round` on a real value: round to the
nearest integer, ties to even (banker's rounding). -/
def pyRound (q : ℚ) : ℤ :=
  let f : ℤ := ⌊q⌋
  let r : ℚ := q - f
  if r < 1/2 then f
  else if 1/2 < r then f + 1
  else if f % 2 = 0 then f else f + 1

/-- Embeds the `mode="before"` field validator
`convert_written_percentage_to_numeric_form`: `return v / 100`. -/
def convert_written_percentage_to_numeric_form (v : ℚ) : ℚ := v / 100

/-- The age computation of the `current_age` property, on day numbers:
`int(delta.days / 365.25)` where `delta = date.today() - date_of_birth`.
`365.25` is exactly representable as a float and `delta.days` is far too
small for the float quotient to truncate differently from the exact
quotient, so the exact rational quotient is the faithful embedding. -/
def current_age_from_birth (today dob : ℤ) : ℤ :=
  truncQ (((today - dob : ℤ) : ℚ) / (365.25 : ℚ))

/-- Embeds the `current_age` property. -/
def User.current_age (u : User) (today : ℤ) : ℤ :=
  current_age_from_birth today u.date_of_birth

/-- Embeds the `years_to_retirement` property. -/
def User.years_to_retirement (u : User) (today : ℤ) : ℤ :=
  u.retirement_age - u.current_age today

/-- Embeds the `expected_years_in_retirement` property. -/
def User.expected_years_in_retirement (u : User) : ℤ :=
  u.life_expectancy - u.retirement_age

/-- Embeds the `mode="after"` model validator
`check_retirement_age_is_greater_than_current_age`. -/
def check_retirement_age_is_greater_than_current_age
    (u : User) (today : ℤ) : Except String User :=
  if u.retirement_age ≤ u.current_age today then
    .error "Retirement age must be greater than current age"
  else .ok u

/-- Embeds the `mode="after"` model validator
`check_life_expectancy_greater_than_retirement_age`. -/
def check_life_expectancy_greater_than_retirement_age
    (u : User) : Except String User :=
  if u.life_expectancy ≤ u.retirement_age then
    .error "Life expectancy must be greater than retirement age"
  else .ok u

/-- The base-field parsing step of `User.model_validate`: every field is
carried over unchanged except the three rate fields, which pass through
the `mode="before"` percentage conversion. -/
def parse_base_fields (raw : RawUser) : User :=
  { id := raw.id
    address := raw.address
    full_name := raw.full_name
    date_of_birth := raw.date_of_birth
    life_expectancy := raw.life_expectancy
    retirement_age := raw.retirement_age
    current_retirement_savings := raw.current_retirement_savings
    household_income := raw.household_income
    current_savings_rate :=
      convert_written_percentage_to_numeric_form raw.current_savings_rate
    expected_rate_of_return :=
      convert_written_percentage_to_numeric_form raw.expected_rate_of_return
    pre_retirement_income_percent :=
      convert_written_percentage_to_numeric_form raw.pre_retirement_income_percent }

/-- Embeds `User.model_validate` on a well-typed raw field set: base
fields are parsed (the three rate fields passing through the
percentage conversion), then the two `mode="after"` model validators
run in definition order, the first raised error aborting validation. -/
def User.model_validate (today : ℤ) (raw : RawUser) : Except String User :=
  (check_retirement_age_is_greater_than_current_age (parse_base_fields raw) today).bind
    check_life_expectancy_greater_than_retirement_age

/-- Embeds `User.calculate_required_retirement_income`:
`round(P * (1 + r) ** t * self.pre_retirement_income_percent)`. -/
def User.calculate_required_retirement_income
    (u : User) (today : ℤ) (annual_salary_increase : ℚ) : ℤ :=
  let r := annual_salary_increase
  let t := u.years_to_retirement today
  let P := (u.household_income : ℚ)
  let future_salary := P * (1 + r) ^ t
  pyRound (future_salary * u.pre_retirement_income_percent)

/-- Embeds `User.calculate_expected_savings_at_retirement`.  The source
divides by `r - g` unconditionally; when the divisor is zero the float
division raises `ZeroDivisionError`, embedded as `none`. -/
def User.calculate_expected_savings_at_retirement
    (u : User) (today : ℤ) (annual_salary_increase : ℚ) : Option ℤ :=
  let t := u.years_to_retirement today
  let r := u.expected_rate_of_return
  let g := annual_salary_increase
  let P := (u.current_retirement_savings : ℚ)
  let PMT := (u.household_income : ℚ) * u.current_savings_rate
  if r - g = 0 then none
  else
    let compounded_lump_sum := P * (1 + r) ^ t
    let future_value_growth_annuity :=
      PMT * (((1 + r) ^ t - (1 + g) ^ t) / (r - g))
    some (pyRound (compounded_lump_sum + future_value_growth_annuity))

/-- Embeds `User.calculate_required_retirement_savings`.  The source
computes `A * ((1 - ((1 + (r - i)) ** -t)) / (r - i))` unconditionally;
a zero divisor `r - i`, or a zero base `1 + (r - i)` raised to a
negative power, raises `ZeroDivisionError`, embedded as `none`. -/
def User.calculate_required_retirement_savings
    (u : User) (today : ℤ) (inflation_rate annual_salary_increase : ℚ) : Option ℤ :=
  let i := inflation_rate
  let r := u.expected_rate_of_return
  let t := u.expected_years_in_retirement
  let A := u.calculate_required_retirement_income today annual_salary_increase
  if r - i = 0 then none
  else if 1 + (r - i) = 0 ∧ 0 < t then none
  else some (pyRound ((A : ℚ) * ((1 - (1 + (r - i)) ^ (-t)) / (r - i))))

/-- Embeds `get_projected_user_financials` from `cli.py`: it calls the
two savings calculations and packs their results into a
`UserFinancials`, unchanged. -/
def get_projected_user_financials
    (user : User) (today : ℤ)
    (annual_salary_increase inflation_rate : ℚ) : Option UserFinancials := do
  let expected_savings ←
    user.calculate_expected_savings_at_retirement today annual_salary_increase
  let required_savings ←
    user.calculate_required_retirement_savings today inflation_rate
      annual_salary_increase
  return { expected_retirement_savings := expected_savings
           required_retirement_savings := required_savings }

/-- The exact (unrounded) value whose rounding
`calculate_required_retirement_income` returns. -/
def requiredRetirementIncomeValue (u : User) (today : ℤ) (g : ℚ) : ℚ :=
  (u.household_income : ℚ) * (1 + g) ^ (u.years_to_retirement today) *
    u.pre_retirement_income_percent

/-- The exact (unrounded) value whose rounding
`calculate_expected_savings_at_retirement` returns when `r ≠ g`. -/
def expectedSavingsValue (u : User) (today : ℤ) (g : ℚ) : ℚ :=
  (u.current_retirement_savings : ℚ) *
      (1 + u.expected_rate_of_return) ^ (u.years_to_retirement today) +
    ((u.household_income : ℚ) * u.current_savings_rate) *
      (((1 + u.expected_rate_of_return) ^ (u.years_to_retirement today) -
          (1 + g) ^ (u.years_to_retirement today)) /
        (u.expected_rate_of_return - g))

/-- The exact (unrounded) value whose rounding
`calculate_required_retirement_savings` returns when its divisors are
nonzero. -/
def requiredSavingsValue (u : User) (today : ℤ) (i g : ℚ) : ℚ :=
  ((u.calculate_required_retirement_income today g : ℤ) : ℚ) *
    ((1 - (1 + (u.expected_rate_of_return - i)) ^
        (-(u.expected_years_in_retirement))) /
      (u.expected_rate_of_return - i))

/-- The static profile of the repository's test fixtures: born day 0,
observed on day `10960 = 365 * 30 + 10`, hence thirty years old. -/
def mockRaw : RawUser :=
  { id := 1
    address := "26 Piazza di Spagna"
    full_name := "John Keats"
    date_of_birth := 0
    life_expectancy := 90
    retirement_age := 60
    current_retirement_savings := 10000
    household_income := 60000
    current_savings_rate := 10
    expected_rate_of_return := 10
    pre_retirement_income_percent := 67 }

/-- The validated form of `mockRaw`. -/
def mockUser : User :=
  { id := 1
    address := "26 Piazza di Spagna"
    full_name := "John Keats"
    date_of_birth := 0
    life_expectancy := 90
    retirement_age := 60
    current_retirement_savings := 10000
    household_income := 60000
    current_savings_rate := 1/10
    expected_rate_of_return := 1/10
    pre_retirement_income_percent := 67/100 }

/-- A validated profile one year from retirement whose target income is
exactly half a currency unit: household income 1, target percentage
50 % (stored `1/2`), ages 30 / 31 / 32. -/
def tieRaw : RawUser :=
  { id := 2
    address := "nowhere"
    full_name := "Tie Case"
    date_of_birth := 0
    life_expectancy := 32
    retirement_age := 31
    current_retirement_savings := 0
    household_income := 1
    current_savings_rate := 10
    expected_rate_of_return := 10
    pre_retirement_income_percent := 50 }

/-- The validated form of `tieRaw`. -/
def tieUser : User :=
  { id := 2
    address := "nowhere"
    full_name := "Tie Case"
    date_of_birth := 0
    life_expectancy := 32
    retirement_age := 31
    current_retirement_savings := 0
    household_income := 1
    current_savings_rate := 1/10
    expected_rate_of_return := 1/10
    pre_retirement_income_percent := 1/2 }

/-- A validated profile on which both savings calculations hit an exact
half-unit value: rate of return 100 % (stored `1`), savings rate 50 %,
no current savings, income 1, ages 30 / 31 / 32. -/
def tieRaw2 : RawUser :=
  { id := 3
    address := "nowhere"
    full_name := "Tie Case Two"
    date_of_birth := 0
    life_expectancy := 32
    retirement_age := 31
    current_retirement_savings := 0
    household_income := 1
    current_savings_rate := 50
    expected_rate_of_return := 100
    pre_retirement_income_percent := 100 }

/-- The validated form of `tieRaw2`. -/
def tieUser2 : User :=
  { id := 3
    address := "nowhere"
    full_name := "Tie Case Two"
    date_of_birth := 0
    life_expectancy := 32
    retirement_age := 31
    current_retirement_savings := 0
    household_income := 1
    current_savings_rate := 1/2
    expected_rate_of_return := 1
    pre_retirement_income_percent := 1 }

/-! ### Helper lemmas shared by the claim theorems -/

theorem pyRound_half (k : ℤ) :
    pyRound ((k : ℚ) + 1/2) = if k % 2 = 0 then k else k + 1 := by
  have hfl : ⌊(k : ℚ) + 1/2⌋ = k := by
    rw [Int.floor_int_add]
    norm_num
  have hr : ((k : ℚ) + 1/2) - (⌊(k : ℚ) + 1/2⌋ : ℚ) = 1/2 := by
    rw [hfl]; ring
  simp only [pyRound, hr, hfl]
  norm_num

theorem calculate_required_retirement_income_eq (u : User) (today : ℤ) (g : ℚ) :
    u.calculate_required_retirement_income today g =
      pyRound (requiredRetirementIncomeValue u today g) := rfl

theorem calculate_expected_savings_eq (u : User) (today : ℤ) (g : ℚ)
    (h : u.expected_rate_of_return ≠ g) :
    u.calculate_expected_savings_at_retirement today g =
      some (pyRound (expectedSavingsValue u today g)) := by
  simp only [User.calculate_expected_savings_at_retirement, expectedSavingsValue]
  rw [if_neg (sub_ne_zero_of_ne h)]

theorem calculate_required_savings_eq (u : User) (today : ℤ) (i g : ℚ)
    (h1 : u.expected_rate_of_return ≠ i)
    (h2 : 1 + (u.expected_rate_of_return - i) ≠ 0) :
    u.calculate_required_retirement_savings today i g =
      some (pyRound (requiredSavingsValue u today i g)) := by
  simp only [User.calculate_required_retirement_savings, requiredSavingsValue]
  rw [if_neg (sub_ne_zero_of_ne h1), if_neg]
  intro hc
  exact h2 hc.1

theorem validate_ok_iff (today : ℤ) (raw : RawUser) (u : User) :
    User.model_validate today raw = .ok u ↔
      (u = parse_base_fields raw ∧
        current_age_from_birth today raw.date_of_birth < raw.retirement_age ∧
        raw.retirement_age < raw.life_expectancy) := by
  have hra : (parse_base_fields raw).retirement_age = raw.retirement_age := rfl
  have hle : (parse_base_fields raw).life_expectancy = raw.life_expectancy := rfl
  have hca : (parse_base_fields raw).current_age today =
      current_age_from_birth today raw.date_of_birth := rfl
  unfold User.model_validate check_retirement_age_is_greater_than_current_age
    check_life_expectancy_greater_than_retirement_age
  rw [hra, hca]
  by_cases h1 : raw.retirement_age ≤ current_age_from_birth today raw.date_of_birth
  · rw [if_pos h1]
    simp only [Except.bind]
    constructor
    · intro h; cases h
    · rintro ⟨-, hlt, -⟩; omega
  · rw [if_neg h1]
    simp only [Except.bind]
    rw [hle, hra]
    by_cases h2 : raw.life_expectancy ≤ raw.retirement_age
    · rw [if_pos h2]
      constructor
      · intro h; cases h
      · rintro ⟨-, -, hlt⟩; omega
    · rw [if_neg h2]
      constructor
      · intro h
        cases h
        exact ⟨rfl, by omega, by omega⟩
      · rintro ⟨rfl, -, -⟩; rfl

theorem mock_validate : User.model_validate 10960 mockRaw = .ok mockUser := by
  rw [validate_ok_iff]
  refine ⟨?_, ?_, ?_⟩
  · norm_num [mockUser, parse_base_fields, mockRaw,
      convert_written_percentage_to_numeric_form]
  · norm_num [current_age_from_birth, truncQ, mockRaw]
  · norm_num [mockRaw]

theorem tie_validate : User.model_validate 10960 tieRaw = .ok tieUser := by
  rw [validate_ok_iff]
  refine ⟨?_, ?_, ?_⟩
  · norm_num [tieUser, parse_base_fields, tieRaw,
      convert_written_percentage_to_numeric_form]
  · norm_num [current_age_from_birth, truncQ, tieRaw]
  · norm_num [tieRaw]

theorem tie2_validate : User.model_validate 10960 tieRaw2 = .ok tieUser2 := by
  rw [validate_ok_iff]
  refine ⟨?_, ?_, ?_⟩
  · norm_num [tieUser2, parse_base_fields, tieRaw2,
      convert_written_percentage_to_numeric_form]
  · norm_num [current_age_from_birth, truncQ, tieRaw2]
  · norm_num [tieRaw2]

/-! ### Claim theorems -/

/-- C1 (counterexample): `mockUser` is a validated profile with expected
rate of return `1/10`.  Calling the expected-savings calculation with
`g = 1/10` (so `r = g`) hits the unguarded division by `r - g = 0` and
raises (`none`), and the required-savings calculation with `i = 1/10`
(so `r = i`) likewise: contrary to the claim, no limiting form is used
and the result is not a non-error integer. -/
theorem C1_divzero_counterexample :
    User.model_validate 10960 mockRaw = Except.ok mockUser ∧
    mockUser.calculate_expected_savings_at_retirement 10960 (1/10) = none ∧
    mockUser.calculate_required_retirement_savings 10960 (1/10) (1/50) = none := by
  refine ⟨mock_validate, ?_, ?_⟩
  · norm_num [User.calculate_expected_savings_at_retirement, mockUser]
  · norm_num [User.calculate_required_retirement_savings, mockUser]

/-- C1 (amended): the source has no limiting-form special case.  The
expected-savings calculation raises `ZeroDivisionError` (returns no
integer) exactly when `r = g`, and the required-savings calculation
exactly when `r = i`, or when `1 + (r - i) = 0` with a positive
retirement horizon (zero base under a negative exponent); for all other
rates each returns an integer. -/
theorem C1_divzero_amended (u : User) (today : ℤ) (g i : ℚ) :
    (u.calculate_expected_savings_at_retirement today g = none ↔
      u.expected_rate_of_return = g) ∧
    (u.calculate_required_retirement_savings today i g = none ↔
      (u.expected_rate_of_return = i ∨
        (1 + (u.expected_rate_of_return - i) = 0 ∧
          0 < u.expected_years_in_retirement))) := by
  constructor
  · by_cases h : u.expected_rate_of_return = g
    · simp [User.calculate_expected_savings_at_retirement, h]
    · rw [calculate_expected_savings_eq u today g h]
      simp [h]
  · by_cases h1 : u.expected_rate_of_return = i
    · simp [User.calculate_required_retirement_savings, h1]
    · by_cases h2 : 1 + (u.expected_rate_of_return - i) = 0
      · by_cases h3 : 0 < u.expected_years_in_retirement
        · simp only [User.calculate_required_retirement_savings]
          rw [if_neg (sub_ne_zero_of_ne h1), if_pos ⟨h2, h3⟩]
          simp [h1, h2, h3]
        · simp only [User.calculate_required_retirement_savings]
          rw [if_neg (sub_ne_zero_of_ne h1), if_neg (by tauto)]
          simp [h1, h2, h3]
      · rw [calculate_required_savings_eq u today i g h1 h2]
        simp [h1, h2]

/-- C2 (counterexample): for the validated profile `tieUser` with salary
growth `0`, the unrounded required-retirement-income value is exactly
the half-integer `1/2`, yet the operation returns `0`, the integer
NEARER to zero, refuting the claimed round-half-away-from-zero
behaviour (Python's `round` rounds ties to even). -/
theorem C2_half_to_even_counterexample :
    User.model_validate 10960 tieRaw = Except.ok tieUser ∧
    requiredRetirementIncomeValue tieUser 10960 0 = 1/2 ∧
    tieUser.calculate_required_retirement_income 10960 0 = 0 := by
  have hv : requiredRetirementIncomeValue tieUser 10960 0 = 1/2 := by
    norm_num [requiredRetirementIncomeValue, User.years_to_retirement,
      User.current_age, current_age_from_birth, truncQ, tieUser]
  refine ⟨tie_validate, hv, ?_⟩
  rw [calculate_required_retirement_income_eq, hv]
  norm_num [pyRound]

/-- C2 (amended): all three projection operations round to the nearest
integer with ties to even (Python's `round`): whenever the unrounded
value is exactly `k + 1/2`, the returned integer is the even one of
`k` and `k + 1`. -/
theorem C2_ties_to_even (u : User) (today : ℤ) (g i : ℚ) :
    (∀ k : ℤ, requiredRetirementIncomeValue u today g = (k : ℚ) + 1/2 →
      u.calculate_required_retirement_income today g =
        if k % 2 = 0 then k else k + 1) ∧
    (∀ k : ℤ, u.expected_rate_of_return ≠ g →
      expectedSavingsValue u today g = (k : ℚ) + 1/2 →
      u.calculate_expected_savings_at_retirement today g =
        some (if k % 2 = 0 then k else k + 1)) ∧
    (∀ k : ℤ, u.expected_rate_of_return ≠ i →
      1 + (u.expected_rate_of_return - i) ≠ 0 →
      requiredSavingsValue u today i g = (k : ℚ) + 1/2 →
      u.calculate_required_retirement_savings today i g =
        some (if k % 2 = 0 then k else k + 1)) := by
  refine ⟨fun k hk => ?_, fun k h hk => ?_, fun k h1 h2 hk => ?_⟩
  · rw [calculate_required_retirement_income_eq, hk, pyRound_half]
  · rw [calculate_expected_savings_eq u today g h, hk, pyRound_half]
  · rw [calculate_required_savings_eq u today i g h1 h2, hk, pyRound_half]

/-- C2 (witness): concrete half-integer instances for each of the three
operations, rounded to the even neighbour `0`. -/
theorem C2_ties_to_even_witness :
    tieUser.calculate_required_retirement_income 10960 0 = 0 ∧
    tieUser2.calculate_expected_savings_at_retirement 10960 0 = some 0 ∧
    tieUser2.calculate_required_retirement_savings 10960 0 0 = some 0 := by
  refine ⟨?_, ?_, ?_⟩
  · have h := (C2_ties_to_even tieUser 10960 0 0).1 0 (by
      norm_num [requiredRetirementIncomeValue, User.years_to_retirement,
        User.current_age, current_age_from_birth, truncQ, tieUser])
    simpa using h
  · have h := (C2_ties_to_even tieUser2 10960 0 0).2.1 0 (by norm_num [tieUser2]) (by
      norm_num [expectedSavingsValue, User.years_to_retirement,
        User.current_age, current_age_from_birth, truncQ, tieUser2])
    simpa using h
  · have h := (C2_ties_to_even tieUser2 10960 0 0).2.2 0 (by norm_num [tieUser2])
      (by norm_num [tieUser2]) (by
      norm_num [requiredSavingsValue, User.calculate_required_retirement_income,
        User.years_to_retirement, User.expected_years_in_retirement,
        User.current_age, current_age_from_birth, truncQ, pyRound, tieUser2])
    simpa using h

/-- The test-fixture profile with a raw expected rate of return of 150,
i.e. "150 %". -/
def overRaw : RawUser := { mockRaw with expected_rate_of_return := 150 }

/-- The validated form of `overRaw`: the stored rate is `3/2`. -/
def overUser : User := { mockUser with expected_rate_of_return := 3/2 }

/-- C3 (counterexample): the validator enforces no range on the rate
fields: a raw expected rate of return of 150 passes validation and is
stored as `3/2`, outside `[0, 1)`. -/
theorem C3_range_counterexample :
    User.model_validate 10960 overRaw = Except.ok overUser ∧
    overUser.expected_rate_of_return = 3/2 ∧
    ¬ overUser.expected_rate_of_return < 1 := by
  refine ⟨?_, by norm_num [overUser, mockUser], by norm_num [overUser, mockUser]⟩
  rw [validate_ok_iff]
  refine ⟨?_, ?_, ?_⟩
  · norm_num [overUser, mockUser, parse_base_fields, overRaw, mockRaw,
      convert_written_percentage_to_numeric_form]
  · norm_num [current_age_from_birth, truncQ, overRaw, mockRaw]
  · norm_num [overRaw, mockRaw]

/-- C3 (amended): validation stores each rate as `raw / 100` with no
range check, so the stored rates lie in `[0, 1)` exactly for raw inputs
in `[0, 100)`: for every validated profile whose three raw rate inputs
lie in `[0, 100)`, the three stored rate fields lie in `[0, 1)`. -/
theorem C3_rates_in_unit_interval (today : ℤ) (raw : RawUser) (u : User)
    (h : User.model_validate today raw = .ok u)
    (h1 : 0 ≤ raw.current_savings_rate) (h1' : raw.current_savings_rate < 100)
    (h2 : 0 ≤ raw.expected_rate_of_return)
    (h2' : raw.expected_rate_of_return < 100)
    (h3 : 0 ≤ raw.pre_retirement_income_percent)
    (h3' : raw.pre_retirement_income_percent < 100) :
    (0 ≤ u.current_savings_rate ∧ u.current_savings_rate < 1) ∧
    (0 ≤ u.expected_rate_of_return ∧ u.expected_rate_of_return < 1) ∧
    (0 ≤ u.pre_retirement_income_percent ∧
      u.pre_retirement_income_percent < 1) := by
  obtain ⟨rfl, -, -⟩ := (validate_ok_iff today raw u).mp h
  simp only [parse_base_fields, convert_written_percentage_to_numeric_form]
  refine ⟨⟨?_, ?_⟩, ⟨?_, ?_⟩, ⟨?_, ?_⟩⟩
  · exact div_nonneg h1 (by norm_num)
  · exact (div_lt_one (by norm_num)).mpr h1'
  · exact div_nonneg h2 (by norm_num)
  · exact (div_lt_one (by norm_num)).mpr h2'
  · exact div_nonneg h3 (by norm_num)
  · exact (div_lt_one (by norm_num)).mpr h3'

/-- C3 (witness): the test-fixture profile's raw rates 10, 10 and 67 lie
in `[0, 100)`, so its stored rates lie in `[0, 1)`. -/
theorem C3_rates_in_unit_interval_witness :
    (0 ≤ mockUser.current_savings_rate ∧ mockUser.current_savings_rate < 1) ∧
    (0 ≤ mockUser.expected_rate_of_return ∧
      mockUser.expected_rate_of_return < 1) ∧
    (0 ≤ mockUser.pre_retirement_income_percent ∧
      mockUser.pre_retirement_income_percent < 1) :=
  C3_rates_in_unit_interval 10960 mockRaw mockUser mock_validate
    (by norm_num [mockRaw]) (by norm_num [mockRaw]) (by norm_num [mockRaw])
    (by norm_num [mockRaw]) (by norm_num [mockRaw]) (by norm_num [mockRaw])

/-- C4 (confirmed): for well-typed raw input, validation succeeds if and
only if retirement age strictly exceeds the derived current age and
life expectancy strictly exceeds retirement age; and every profile
validation produces satisfies both strict inequalities. -/
theorem C4_validation_iff (today : ℤ) (raw : RawUser) :
    ((∃ u, User.model_validate today raw = .ok u) ↔
      (current_age_from_birth today raw.date_of_birth < raw.retirement_age ∧
        raw.retirement_age < raw.life_expectancy)) ∧
    (∀ u, User.model_validate today raw = .ok u →
      u.current_age today < u.retirement_age ∧
      u.retirement_age < u.life_expectancy) := by
  constructor
  · constructor
    · rintro ⟨u, hu⟩
      exact ((validate_ok_iff today raw u).mp hu).2
    · rintro ⟨h1, h2⟩
      exact ⟨parse_base_fields raw, (validate_ok_iff today raw _).mpr ⟨rfl, h1, h2⟩⟩
  · intro u hu
    obtain ⟨rfl, h1, h2⟩ := (validate_ok_iff today raw u).mp hu
    exact ⟨h1, h2⟩

/-- C4 (witness): the validated test-fixture profile satisfies both
strict inequalities. -/
theorem C4_validation_iff_witness :
    mockUser.current_age 10960 < mockUser.retirement_age ∧
    mockUser.retirement_age < mockUser.life_expectancy :=
  (C4_validation_iff 10960 mockRaw).2 mockUser mock_validate

/-- C5 (confirmed): on the fixed fixture profile (rates 10 %, 10 %,
67 %, income 60000, savings 10000, ages 30 / 60 / 90, thirty years each
side of retirement) with salary growth `1/50` and inflation `3/100`,
the three operations return 72817, 1347347 and 903589. -/
theorem C5_end_to_end :
    User.model_validate 10960 mockRaw = Except.ok mockUser ∧
    mockUser.current_age 10960 = 30 ∧
    mockUser.years_to_retirement 10960 = 30 ∧
    mockUser.expected_years_in_retirement = 30 ∧
    mockUser.calculate_required_retirement_income 10960 (1/50) = 72817 ∧
    mockUser.calculate_expected_savings_at_retirement 10960 (1/50) =
      some 1347347 ∧
    mockUser.calculate_required_retirement_savings 10960 (3/100) (1/50) =
      some 903589 := by
  refine ⟨mock_validate, ?_, ?_, ?_, ?_, ?_, ?_⟩ <;>
    norm_num [User.calculate_required_retirement_savings,
      User.calculate_expected_savings_at_retirement,
      User.calculate_required_retirement_income, User.years_to_retirement,
      User.expected_years_in_retirement, User.current_age,
      current_age_from_birth, truncQ, pyRound, mockUser]

/-- C6 (confirmed): a validated profile stores exactly `raw / 100` for
each of the three rate fields, and every other field is carried over
from the raw input unchanged. -/
theorem C6_percentage_conversion (today : ℤ) (raw : RawUser) (u : User)
    (h : User.model_validate today raw = .ok u) :
    u.current_savings_rate = raw.current_savings_rate / 100 ∧
    u.expected_rate_of_return = raw.expected_rate_of_return / 100 ∧
    u.pre_retirement_income_percent =
      raw.pre_retirement_income_percent / 100 ∧
    u.id = raw.id ∧ u.address = raw.address ∧ u.full_name = raw.full_name ∧
    u.date_of_birth = raw.date_of_birth ∧
    u.life_expectancy = raw.life_expectancy ∧
    u.retirement_age = raw.retirement_age ∧
    u.current_retirement_savings = raw.current_retirement_savings ∧
    u.household_income = raw.household_income := by
  obtain ⟨rfl, -, -⟩ := (validate_ok_iff today raw u).mp h
  exact ⟨rfl, rfl, rfl, rfl, rfl, rfl, rfl, rfl, rfl, rfl, rfl⟩

/-- C6 (witness): the conversion at the test-fixture profile. -/
theorem C6_percentage_conversion_witness :
    mockUser.current_savings_rate = mockRaw.current_savings_rate / 100 ∧
    mockUser.expected_rate_of_return = mockRaw.expected_rate_of_return / 100 ∧
    mockUser.pre_retirement_income_percent =
      mockRaw.pre_retirement_income_percent / 100 ∧
    mockUser.id = mockRaw.id ∧ mockUser.address = mockRaw.address ∧
    mockUser.full_name = mockRaw.full_name ∧
    mockUser.date_of_birth = mockRaw.date_of_birth ∧
    mockUser.life_expectancy = mockRaw.life_expectancy ∧
    mockUser.retirement_age = mockRaw.retirement_age ∧
    mockUser.current_retirement_savings = mockRaw.current_retirement_savings ∧
    mockUser.household_income = mockRaw.household_income :=
  C6_percentage_conversion 10960 mockRaw mockUser mock_validate

/-- C7 (confirmed): required retirement income is the rounding of
`P * (1 + g) ^ t * pre_retirement_income_percent`; with a zero horizon
the growth factor vanishes and it is the rounding of
`P * pre_retirement_income_percent`. -/
theorem C7_income_formula (u : User) (today : ℤ) (g : ℚ) :
    u.calculate_required_retirement_income today g =
      pyRound ((u.household_income : ℚ) *
        (1 + g) ^ (u.years_to_retirement today) *
        u.pre_retirement_income_percent) ∧
    (u.years_to_retirement today = 0 →
      u.calculate_required_retirement_income today g =
        pyRound ((u.household_income : ℚ) *
          u.pre_retirement_income_percent)) := by
  refine ⟨rfl, fun h0 => ?_⟩
  simp only [calculate_required_retirement_income_eq,
    requiredRetirementIncomeValue, h0, zpow_zero, mul_one]

/-- C7 (witness): a date on which the fixture profile's holder has
reached retirement age, so the horizon is zero and the growth factor
drops out. -/
theorem C7_income_formula_witness :
    mockUser.years_to_retirement 21930 = 0 ∧
    mockUser.calculate_required_retirement_income 21930 (1/50) =
      pyRound ((mockUser.household_income : ℚ) *
        mockUser.pre_retirement_income_percent) := by
  have h : mockUser.years_to_retirement 21930 = 0 := by
    norm_num [User.years_to_retirement, User.current_age,
      current_age_from_birth, truncQ, mockUser]
  exact ⟨h, (C7_income_formula mockUser 21930 (1/50)).2 h⟩

/-- C8 (confirmed): on a validated profile the derived quantities are
exactly as specified: current age is days since birth divided by 365.25
and truncated toward zero, the retirement horizon is retirement age
minus current age, and the retirement span is life expectancy minus
retirement age. -/
theorem C8_derived_ages (today : ℤ) (raw : RawUser) (u : User)
    (_h : User.model_validate today raw = .ok u) :
    u.current_age today =
      truncQ (((today - u.date_of_birth : ℤ) : ℚ) / (365.25 : ℚ)) ∧
    u.years_to_retirement today = u.retirement_age - u.current_age today ∧
    u.expected_years_in_retirement =
      u.life_expectancy - u.retirement_age :=
  ⟨rfl, rfl, rfl⟩

/-- C8 (witness): the derived quantities of the validated fixture
profile. -/
theorem C8_derived_ages_witness :
    mockUser.current_age 10960 =
      truncQ (((10960 - mockUser.date_of_birth : ℤ) : ℚ) / (365.25 : ℚ)) ∧
    mockUser.years_to_retirement 10960 =
      mockUser.retirement_age - mockUser.current_age 10960 ∧
    mockUser.expected_years_in_retirement =
      mockUser.life_expectancy - mockUser.retirement_age :=
  C8_derived_ages 10960 mockRaw mockUser mock_validate

/-- A raw input violating both cross-field checks: retirement age 20 is
at most the derived current age 30, and life expectancy 10 is at most
the retirement age. -/
def bothRaw : RawUser :=
  { mockRaw with retirement_age := 20, life_expectancy := 10 }

/-- A raw input violating only the second cross-field check: life
expectancy 60 equals the retirement age. -/
def lifeRaw : RawUser := { mockRaw with life_expectancy := 60 }

/-- C9 (counterexample): an input violating both inequalities fails with
the first check's error, whose payload is the source's message
"Retirement age must be greater than current age" — not the
`InvalidPlanError("retirement age must exceed current age")` the claim
quotes. -/
theorem C9_error_message_counterexample :
    User.model_validate 10960 bothRaw =
      Except.error "Retirement age must be greater than current age" ∧
    "Retirement age must be greater than current age" ≠
      "retirement age must exceed current age" := by
  constructor
  · unfold User.model_validate check_retirement_age_is_greater_than_current_age
      check_life_expectancy_greater_than_retirement_age
    rw [if_pos (by
      show bothRaw.retirement_age ≤ current_age_from_birth 10960 bothRaw.date_of_birth
      norm_num [current_age_from_birth, truncQ, bothRaw, mockRaw])]
    rfl
  · decide

/-- C9 (amended): the two cross-field checks do run after base-field
parsing in a fixed order with the retirement-age check first and the
first failing check reported, but the failures are `ValueError`s with
the messages "Retirement age must be greater than current age" and
"Life expectancy must be greater than retirement age". -/
theorem C9_check_order (today : ℤ) (raw : RawUser) :
    (raw.retirement_age ≤ current_age_from_birth today raw.date_of_birth →
      User.model_validate today raw =
        Except.error "Retirement age must be greater than current age") ∧
    (current_age_from_birth today raw.date_of_birth < raw.retirement_age →
      raw.life_expectancy ≤ raw.retirement_age →
      User.model_validate today raw =
        Except.error "Life expectancy must be greater than retirement age") := by
  have hra : (parse_base_fields raw).retirement_age = raw.retirement_age := rfl
  have hle : (parse_base_fields raw).life_expectancy = raw.life_expectancy := rfl
  have hca : (parse_base_fields raw).current_age today =
      current_age_from_birth today raw.date_of_birth := rfl
  constructor
  · intro h1
    unfold User.model_validate check_retirement_age_is_greater_than_current_age
      check_life_expectancy_greater_than_retirement_age
    rw [hra, hca, if_pos h1]
    rfl
  · intro h1 h2
    unfold User.model_validate check_retirement_age_is_greater_than_current_age
      check_life_expectancy_greater_than_retirement_age
    rw [hra, hca, if_neg (not_le.mpr h1)]
    simp only [Except.bind]
    rw [hle, hra, if_pos h2]

/-- C9 (witness): an input violating both checks gets the first check's
message; an input violating only the second gets the second's. -/
theorem C9_check_order_witness :
    User.model_validate 10960 bothRaw =
      Except.error "Retirement age must be greater than current age" ∧
    User.model_validate 10960 lifeRaw =
      Except.error "Life expectancy must be greater than retirement age" := by
  constructor
  · exact (C9_check_order 10960 bothRaw).1 (by
      norm_num [current_age_from_birth, truncQ, bothRaw, mockRaw])
  · exact (C9_check_order 10960 lifeRaw).2 (by
      norm_num [current_age_from_birth, truncQ, lifeRaw, mockRaw]) (by
      norm_num [lifeRaw, mockRaw])

/-- C10 (confirmed): whenever the two savings calculations return
integers, `get_projected_user_financials` returns exactly that pair,
with the expected-savings result in the first component and the
required-savings result in the second, untransformed. -/
theorem C10_projection_passthrough (user : User) (today : ℤ)
    (annual_salary_increase inflation_rate : ℚ) (es rs : ℤ)
    (h1 : user.calculate_expected_savings_at_retirement today
      annual_salary_increase = some es)
    (h2 : user.calculate_required_retirement_savings today inflation_rate
      annual_salary_increase = some rs) :
    get_projected_user_financials user today annual_salary_increase
      inflation_rate =
      some { expected_retirement_savings := es
             required_retirement_savings := rs } := by
  simp [get_projected_user_financials, h1, h2]

/-- C10 (witness): the CLI pairing on the fixture profile returns the
two engine results unchanged. -/
theorem C10_projection_passthrough_witness :
    get_projected_user_financials mockUser 10960 (1/50) (3/100) =
      some { expected_retirement_savings := 1347347
             required_retirement_savings := 903589 } :=
  C10_projection_passthrough mockUser 10960 (1/50) (3/100) 1347347 903589
    (by norm_num [User.calculate_expected_savings_at_retirement,
      User.years_to_retirement, User.current_age, current_age_from_birth,
      truncQ, pyRound, mockUser])
    (by norm_num [User.calculate_required_retirement_savings,
      User.calculate_required_retirement_income, User.years_to_retirement,
      User.expected_years_in_retirement, User.current_age,
      current_age_from_birth, truncQ, pyRound, mockUser])

end RetirementCalculator
